import Mathlib

/-
Verification of the session/authentication and request-mediation core of the
meridian-ui repository: a shallow embedding of js/auth.js, js/config.js and the
two variants of the API client (api.js), together with theorems settling the
stated properties of the specification.
-/

namespace Meridian

/-- Truthiness of a JavaScript string: the empty string is falsy, every other
string is truthy. -/
def jsTruthyStr (s : String) : Bool := !s.data.isEmpty

/-- Truthiness of a possibly absent (null / undefined) JavaScript string. -/
def jsTruthyOptStr : Option String → Bool
| some s => jsTruthyStr s
| none => false

/-- Template-literal rendering of a possibly-undefined string field: an absent
field prints as the text undefined. -/
def jsFieldToString : Option String → String
| some s => s
| none => "undefined"

/-- JavaScript a || b where a is an optional string field and b a string
default: an absent or empty (falsy) a yields b. -/
def jsOrStr : Option String → String → String
| some s, dflt => if jsTruthyStr s then s else dflt
| none, dflt => dflt

/-- Does the first list occur as a prefix of the second? -/
def prefixAt : List Char → List Char → Bool
| [], _ => true
| _ :: _, [] => false
| a :: as, b :: bs => a == b && prefixAt as bs

/-- Does the second list occur as a contiguous sublist of the first? -/
def listHasSub : List Char → List Char → Bool
| [], needle => needle.isEmpty
| c :: t, needle => prefixAt needle (c :: t) || listHasSub t needle

/-- String.prototype.includes: substring containment. -/
def containsStr (hay needle : String) : Bool := listHasSub hay.data needle.data

/-- The base64 alphabet used by window.btoa. -/
def b64Alphabet : List Char :=
  ("ABCDEFGHIJKLMNOPQRSTUVWXYZabcdefghijklmnopqrstuvwxyz0123456789+/").data

/-- The base64 digit for a 6-bit value. -/
def b64Char (n : Nat) : Char := b64Alphabet.getD n ('A')

/-- Encode a group of at most three bytes as four base64 characters, padding
with = as btoa does. -/
def b64Chunk : List Nat → List Char
| [a] => [b64Char (a / 4), b64Char (a % 4 * 16), '=', '=']
| [a, b] => [b64Char (a / 4), b64Char (a % 4 * 16 + b / 16), b64Char (b % 16 * 4), '=']
| [a, b, c] => [b64Char (a / 4), b64Char (a % 4 * 16 + b / 16), b64Char (b % 16 * 4 + c / 64), b64Char (c % 64)]
| _ => []

/-- Encode a byte list in groups of three. -/
def b64Go : List Nat → List Char
| a :: b :: c :: rest => b64Chunk [a, b, c] ++ b64Go rest
| rest => b64Chunk rest

/-- window.btoa on latin-1 strings: base64 of the character codes. -/
def btoa (s : String) : String := String.mk (b64Go (s.data.map Char.toNat))

/-- The configuration object of js/config.js: base URL and session timeout. -/
structure Config where
  apiBaseUrl : String
  sessionTimeout : Nat
deriving DecidableEq, Repr

/-- The default configuration values of js/config.js. -/
def config : Config := { apiBaseUrl := "http://localhost:8080", sessionTimeout := 30 * 60 * 1000 }

/-- Storage key for the token (config.tokenKey). -/
def tokenKey : String := "meridian_auth_token"

/-- Storage key for the user data (config.userKey). -/
def userKey : String := "meridian_user_data"

/-- Storage key for the credentials (config.credentialsKey). -/
def credentialsKey : String := "meridian_credentials"

/-- User data as stored by login and read back by the dashboard. -/
structure UserData where
  id : Nat
  username : String
deriving DecidableEq, Repr

/-- The credentials record persisted by Auth.login. Its password field is
optional because the record written by login carries only the username; an
absent field reads back as undefined. -/
structure Credentials where
  username : String
  password : Option String
deriving DecidableEq, Repr

/-- The three sessionStorage slots used by auth.js, one per distinct storage
key of config.js. -/
structure Storage where
  token : Option String
  userData : Option UserData
  creds : Option Credentials
deriving DecidableEq, Repr

/-- The mutable state owned by the Auth object: the sessionStorage slots, the
private _timeoutId field and the last window.location.href assignment. -/
structure AuthState where
  storage : Storage
  timeoutId : Option Nat
  location : Option String
deriving DecidableEq, Repr

/-- The browser timer scheduler: armed timer ids and the next fresh id. -/
structure Sched where
  pending : List Nat
  nextId : Nat
deriving DecidableEq, Repr

/-- The whole world visible to the core: auth state, scheduler and the number
of alert dialogs shown so far. -/
structure World where
  auth : AuthState
  sched : Sched
  alerts : Nat
deriving DecidableEq, Repr

/-- The initial world: empty storage, no timer armed, no alerts. -/
def initWorld : World :=
  { auth := { storage := { token := none, userData := none, creds := none },
              timeoutId := none, location := none },
    sched := { pending := [], nextId := 0 }, alerts := 0 }

/-- The JSON text of the mock JWT header object. -/
def jwtHeaderJson : String := "\x7b\"alg\":\"HS256\",\"typ\":\"JWT\"\x7d"

/-- The JSON text of the mock JWT payload object for a username at time now. -/
def jwtPayloadJson (cfg : Config) (username : String) (now : Nat) : String :=
  "\x7b\"sub\":\"" ++ username ++ "\",\"iat\":" ++ toString now ++ ",\"exp\":" ++
    toString (now + cfg.sessionTimeout) ++ "\x7d"

/-- Auth.generateMockJWT: three base64 parts joined by dots. -/
def generateMockJWT (cfg : Config) (username : String) (now : Nat) : String :=
  btoa jwtHeaderJson ++ "." ++ btoa (jwtPayloadJson cfg username now) ++ "." ++
    btoa ("mock-signature")

/-- window.clearTimeout: disarm the timer with the given id, if armed. -/
def clearTimeoutJs (i : Nat) (s : Sched) : Sched :=
  { s with pending := s.pending.filter (fun j => !(j == i)) }

/-- window.setTimeout: arm a fresh timer and return its id. -/
def setTimeoutJs (s : Sched) : Sched × Nat :=
  ({ pending := s.pending ++ [s.nextId], nextId := s.nextId + 1 }, s.nextId)

/-- Auth.setSessionTimeout: clear any previously stored timer id, then arm a
fresh expiry timer and remember its id. -/
def setSessionTimeout (w : World) : World :=
  let s0 := match w.auth.timeoutId with
    | some i => clearTimeoutJs i w.sched
    | none => w.sched
  let p := setTimeoutJs s0
  { w with auth := { w.auth with timeoutId := some p.2 }, sched := p.1 }

/-- Auth.login of js/auth.js: persist the username-only credentials record and
a mock JWT, store the user data when one is given, then (re)arm the session
timeout. The password argument is accepted but not persisted. -/
def login (cfg : Config) (now : Nat) (username password : String)
    (userData : Option UserData) (w : World) : World :=
  let credentials : Credentials := { username := username, password := none }
  let st0 := w.auth.storage
  let st1 := { st0 with creds := some credentials,
                        token := some (generateMockJWT cfg username now) }
  let st2 := match userData with
    | some d => { st1 with userData := some d }
    | none => st1
  setSessionTimeout { w with auth := { w.auth with storage := st2 } }

/-- Auth.getCredentials: the parsed stored credentials record, or none. -/
def getCredentials (w : World) : Option Credentials := w.auth.storage.creds

/-- Auth.getUserData: the parsed stored user data, or none. -/
def getUserData (w : World) : Option UserData := w.auth.storage.userData

/-- Auth.getToken: the stored token, or none. -/
def getToken (w : World) : Option String := w.auth.storage.token

/-- Auth.isAuthenticated: both the token and the credentials record must be
truthy. -/
def isAuthenticated (w : World) : Bool :=
  jsTruthyOptStr (getToken w) && (getCredentials w).isSome

/-- Auth.logout: remove the three storage slots and navigate to index.html.
The stored timer id is not touched. -/
def logout (w : World) : World :=
  { w with auth := { w.auth with
      storage := { token := none, userData := none, creds := none },
      location := some ("index.html") } }

/-- Auth.getAuthHeader of js/auth.js: with a credentials record present, build
Basic base64(username:password) where the password field is interpolated as a
template literal (undefined when absent); otherwise fall back to a Bearer
token when one is stored, or the empty string. -/
def getAuthHeader (w : World) : String :=
  match getCredentials w with
  | some credentials =>
      "Basic " ++ btoa (credentials.username ++ ":" ++ jsFieldToString credentials.password)
  | none =>
      match getToken w with
      | some token => if jsTruthyStr token then "Bearer " ++ token else ""
      | none => ""

/-- The expiry timer firing: the scheduler pops an armed timer and runs its
callback, which shows an alert and calls Auth.logout. With no timer armed,
nothing happens. -/
def fireTimer (w : World) : World :=
  match w.sched.pending with
  | [] => w
  | _ :: rest =>
      logout { w with sched := { w.sched with pending := rest }, alerts := w.alerts + 1 }

/-- Auth.login of the token variant of auth.js, transcribed from the code
blocks of docs/auth.js.md: store the token and optional user data, then arm
the session timeout. -/
def loginTokenVariant (token : String) (userData : Option UserData) (w : World) : World :=
  let st0 := w.auth.storage
  let st1 := { st0 with token := some token }
  let st2 := match userData with
    | some d => { st1 with userData := some d }
    | none => st1
  setSessionTimeout { w with auth := { w.auth with storage := st2 } }

/-- Auth.getAuthHeader of the token variant of auth.js, transcribed from
docs/auth.js.md: Bearer token, or the empty string without a token. -/
def getAuthHeaderTokenVariant (w : World) : String :=
  match getToken w with
  | some token => if jsTruthyStr token then "Bearer " ++ token else ""
  | none => ""

/-- A JSON response body as far as the gateway inspects it: the message and
error fields the error path reads, plus the remaining payload text. -/
structure Payload where
  message : Option String := none
  error : Option String := none
  body : String := ""
deriving DecidableEq, Repr

/-- The result of response.json(): a parsed payload, or a parse failure with
its runtime message. -/
inductive Body
| json (p : Payload)
| invalid (parseMsg : String)
deriving DecidableEq, Repr

/-- What the fetch call produced: a response with a status and a body, or a
rejection of the exchange itself with the transport error message. -/
inductive FetchResult
| response (status : Nat) (body : Body)
| transportFail (msg : String)
deriving DecidableEq, Repr

/-- response.ok: status in the range 200 to 299. -/
def respOk (status : Nat) : Bool := 200 ≤ status && status < 300

/-- The outcome of API.request as classified by the specification taxonomy:
each error constructor carries the message of the Error the code throws. -/
inductive Outcome
| success (p : Payload)
| authExpired (msg : String)
| httpError (status : Nat) (msg : String)
| networkError (msg : String)
| parseFailure (msg : String)
| raw (msg : String)
deriving DecidableEq, Repr

/-- The message thrown on the 401 session-expiry path. -/
def sessionExpiredMsg : String := "Session expired. Please login again."

/-- The fixed user-safe message of the network-failure path. -/
def netFailMsg : String :=
  "Unable to connect to server. Please check your connection and try again."

/-- The substring the catch block looks for in a caught error message. -/
def fetchRejectMarker : String := "Failed to fetch"

/-- The message carried by an outcome, none for a success. -/
def outcomeMsg : Outcome → Option String
| .success _ => none
| .authExpired m => some m
| .httpError _ m => some m
| .networkError m => some m
| .parseFailure m => some m
| .raw m => some m

/-- The catch block of API.request: any thrown error whose message contains
the fetch rejection marker is replaced by the fixed network-failure error;
every other error is rethrown unchanged. -/
def catchWrap (o : Outcome) : Outcome :=
  match outcomeMsg o with
  | none => o
  | some m => if containsStr m fetchRejectMarker then .networkError netFailMsg else o

/-- The error message derived from a non-ok response: the body message field,
else its error field, else the default text with the status code. -/
def errBodyMsg (body : Body) (status : Nat) : String :=
  let dflt := "Request failed with status " ++ toString status
  match body with
  | .json p => jsOrStr p.message (jsOrStr p.error dflt)
  | .invalid _ => dflt

/-- Response handling of API.request variant A: the 401 branch fires only for
an authenticated user, and every thrown error passes through the catch
block. -/
def handleA (w : World) (fr : FetchResult) : World × Outcome :=
  match fr with
  | .transportFail m => (w, catchWrap (.raw m))
  | .response status body =>
    if respOk status then
      match body with
      | .json p => (w, .success p)
      | .invalid m => (w, catchWrap (.parseFailure m))
    else if status == 401 && isAuthenticated w then
      (logout w, catchWrap (.authExpired sessionExpiredMsg))
    else
      (w, catchWrap (.httpError status (errBodyMsg body status)))

/-- Response handling of API.request variant B: identical to variant A except
that its 401 branch is not guarded by Auth.isAuthenticated. -/
def handleB (w : World) (fr : FetchResult) : World × Outcome :=
  match fr with
  | .transportFail m => (w, catchWrap (.raw m))
  | .response status body =>
    if respOk status then
      match body with
      | .json p => (w, .success p)
      | .invalid m => (w, catchWrap (.parseFailure m))
    else if status == 401 then
      (logout w, catchWrap (.authExpired sessionExpiredMsg))
    else
      (w, catchWrap (.httpError status (errBodyMsg body status)))

/-- Spreading a JavaScript string into an object literal: one entry per
character, keyed by its decimal index. -/
def spreadString (s : String) : List (String × String) :=
  s.data.enum.map (fun p => (toString p.1, String.singleton p.2))

/-- Is a header with the given key present? Later entries override earlier
ones, but presence of the key is order independent. -/
def hasHeaderKey (hs : List (String × String)) (k : String) : Bool :=
  hs.any (fun e => e.1 == k)

/-- The observable fetch call: target URL and assembled headers. -/
structure FetchCall where
  url : String
  headers : List (String × String)
deriving DecidableEq, Repr

/-- Header and URL construction of API.request variant A: the URL is the plain
concatenation of the base URL and the endpoint, and the headers object spreads
the string Auth.getAuthHeader() before the caller-supplied headers. -/
def buildFetchA (cfg : Config) (w : World) (endpoint : String)
    (extra : List (String × String)) : FetchCall :=
  { url := cfg.apiBaseUrl ++ endpoint,
    headers := spreadString (getAuthHeader w) ++ extra }

/-- Header and URL construction of API.request variant B: a Content-Type
default, an Authorization header only for an authenticated user, then the
caller-supplied headers. -/
def buildFetchB (cfg : Config) (w : World) (endpoint : String)
    (extra : List (String × String)) : FetchCall :=
  let defaults := [("Content-Type", "application/json")]
  let defaults := if isAuthenticated w
    then defaults ++ [("Authorization", getAuthHeader w)]
    else defaults
  { url := cfg.apiBaseUrl ++ endpoint, headers := defaults ++ extra }

/-- One complete API.request exchange: the fetch call it issued, the world it
left behind and the outcome it returned. -/
structure RequestTrace where
  call : FetchCall
  world : World
  outcome : Outcome
deriving DecidableEq, Repr

/-- API.request variant A in full, given the environment's fetch result. -/
def requestA (cfg : Config) (w : World) (endpoint : String)
    (extra : List (String × String)) (fr : FetchResult) : RequestTrace :=
  { call := buildFetchA cfg w endpoint extra,
    world := (handleA w fr).1, outcome := (handleA w fr).2 }

/-- API.request variant B in full, given the environment's fetch result. -/
def requestB (cfg : Config) (w : World) (endpoint : String)
    (extra : List (String × String)) (fr : FetchResult) : RequestTrace :=
  { call := buildFetchB cfg w endpoint extra,
    world := (handleB w fr).1, outcome := (handleB w fr).2 }

/-- The externally triggered events of the core: a login, a logout, the expiry
timer firing, and a request through either gateway variant. -/
inductive Op
| opLogin (now : Nat) (username password : String) (userData : Option UserData)
| opLogout
| opFire
| opReqA (endpoint : String) (extra : List (String × String)) (fr : FetchResult)
| opReqB (endpoint : String) (extra : List (String × String)) (fr : FetchResult)
deriving DecidableEq, Repr

/-- The world transition of a single event. -/
def step (cfg : Config) (w : World) : Op → World
| .opLogin now u p ud => login cfg now u p ud w
| .opLogout => logout w
| .opFire => fireTimer w
| .opReqA e x fr => (requestA cfg w e x fr).world
| .opReqB e x fr => (requestB cfg w e x fr).world

/-- Run a sequence of events from a world. -/
def run (cfg : Config) (ops : List Op) (w : World) : World := ops.foldl (step cfg) w

/-- A concrete authenticated world: token and credentials record present. -/
def wActive : World :=
  { initWorld with auth := { initWorld.auth with
      storage := { token := some ("t"), userData := none,
                   creds := some { username := "u", password := none } } } }

theorem run_cons (cfg : Config) (op : Op) (ops : List Op) (w : World) :
    run cfg (op :: ops) w = run cfg ops (step cfg w op) := rfl

theorem run_append (cfg : Config) (l l' : List Op) (w : World) :
    run cfg (l ++ l') w = run cfg l' (run cfg l w) := List.foldl_append _ _ _ _

theorem sessionExpiredMsg_no_marker :
    containsStr sessionExpiredMsg fetchRejectMarker = false := by decide

theorem respOk_401 : respOk 401 = false := by decide

theorem isAuthenticated_logout (w : World) : isAuthenticated (logout w) = false := rfl

/-- Claim C9: Auth.logout is idempotent: a second call leaves exactly the state
of the first, and the session storage is empty afterwards, so calling it on an
already empty session is safe and a no-op on storage. -/
theorem C9_logout_idempotent (w : World) :
    logout (logout w) = logout w
    ∧ (logout w).auth.storage = { token := none, userData := none, creds := none } :=
  ⟨rfl, rfl⟩

/-- Claim C10: Auth.login never persists the plaintext password: the resulting
world is independent of the password argument, and the persisted credentials
record contains only the username, with no password field. -/
theorem C10_password_never_persisted (cfg : Config) (now : Nat) (u p q : String)
    (ud : Option UserData) (w : World) :
    login cfg now u p ud w = login cfg now u q ud w
    ∧ (login cfg now u p ud w).auth.storage.creds = some { username := u, password := none } := by
  refine ⟨rfl, ?_⟩
  cases ud <;> rfl

/-- Claim C7 counterexample: with base URL https://api.x/ ending in a slash,
call("/users/7") targets https://api.x//users/7 with a double slash, not the
https://api.x/users/7 the claim states. -/
theorem C7_trailing_slash_counterexample :
    (requestA { apiBaseUrl := "https://api.x/", sessionTimeout := 0 } initWorld
        ("/users/7") [] (.response 200 (.json {}))).call.url = "https://api.x//users/7"
    ∧ "https://api.x//users/7" ≠ "https://api.x/users/7" := by
  refine ⟨rfl, ?_⟩
  decide

/-- Claim C7 amended: both gateway variants target exactly the plain string
concatenation of the configured base URL and the path, with no slash
normalization; in particular a base URL with a trailing slash yields a double
slash before the path. -/
theorem C7_url_concatenation (cfg : Config) (w : World) (e : String)
    (x : List (String × String)) (fr : FetchResult) :
    (requestA cfg w e x fr).call.url = cfg.apiBaseUrl ++ e
    ∧ (requestB cfg w e x fr).call.url = cfg.apiBaseUrl ++ e
    ∧ (requestA { apiBaseUrl := "https://api.x/", sessionTimeout := 0 } initWorld
        ("/users/7") [] fr).call.url = "https://api.x//users/7" :=
  ⟨rfl, rfl, rfl⟩

/-- Claim C1: evaluation of the credential-to-header derivation at the two
login scenarios. The token variant does produce Bearer abc; but the basic
variant produces Basic base64("alice:undefined"), because Auth.login persists
only the username while Auth.getAuthHeader interpolates the absent password
field, so the claimed Basic base64("alice:pw") is never produced. -/
theorem C1_auth_header_eval :
    getAuthHeaderTokenVariant (loginTokenVariant ("abc")
        (some { id := 1, username := "alice" }) initWorld) = "Bearer abc"
    ∧ getAuthHeader (login config 0 ("alice") ("pw")
        (some { id := 1, username := "alice" }) initWorld)
      = "Basic " ++ btoa ("alice:undefined")
    ∧ getAuthHeader (login config 0 ("alice") ("pw")
        (some { id := 1, username := "alice" }) initWorld)
      ≠ "Basic " ++ btoa ("alice:pw") := by
  refine ⟨rfl, rfl, ?_⟩
  decide

/-- Claim C4 counterexample: immediately after login("alice","pw",·) the
stored credentials record is the username-only record, not the full
username-and-password credential material the claim says currentCredential
returns. -/
theorem C4_credential_counterexample :
    getCredentials (login config 0 ("alice") ("pw")
        (some { id := 1, username := "alice" }) initWorld)
      = some { username := "alice", password := none }
    ∧ getCredentials (login config 0 ("alice") ("pw")
        (some { id := 1, username := "alice" }) initWorld)
      ≠ some { username := "alice", password := some ("pw") } := by
  refine ⟨rfl, ?_⟩
  decide

theorem jsTruthyStr_append_left (a b : String) (h : jsTruthyStr a = true) :
    jsTruthyStr (a ++ b) = true := by
  unfold jsTruthyStr at *
  rw [String.data_append]
  cases hb : a.data with
  | nil => rw [hb] at h; exact absurd h (by decide)
  | cons c t => rfl

theorem generateMockJWT_truthy (cfg : Config) (u : String) (now : Nat) :
    jsTruthyStr (generateMockJWT cfg u now) = true := by
  unfold generateMockJWT
  apply jsTruthyStr_append_left
  apply jsTruthyStr_append_left
  apply jsTruthyStr_append_left
  apply jsTruthyStr_append_left
  decide

/-- Claim C4 amended: immediately after Auth.login the session is active, and
Auth.getCredentials returns the username-only credentials record derived from
the credential material; its password component is deliberately not
persisted. -/
theorem C4_login_active_username_record (cfg : Config) (now : Nat) (u p : String)
    (ud : Option UserData) (w : World) :
    isAuthenticated (login cfg now u p ud w) = true
    ∧ getCredentials (login cfg now u p ud w) = some { username := u, password := none } := by
  constructor
  · have ht : getToken (login cfg now u p ud w) = some (generateMockJWT cfg u now) := by
      cases ud <;> rfl
    have hc : getCredentials (login cfg now u p ud w)
        = some { username := u, password := none } := by
      cases ud <;> rfl
    unfold isAuthenticated
    rw [ht, hc]
    simp [jsTruthyOptStr, generateMockJWT_truthy]
  · cases ud <;> rfl

/-- Claim C2: a call returning HTTP 401 while the session is active destroys
the session (isActive false afterwards) and yields the AuthExpired outcome,
in both gateway variants. -/
theorem C2_unauthorized_active_teardown (cfg : Config) (w : World) (e : String)
    (x : List (String × String)) (body : Body) (h : isAuthenticated w = true) :
    isAuthenticated (requestA cfg w e x (.response 401 body)).world = false
    ∧ (requestA cfg w e x (.response 401 body)).outcome = .authExpired sessionExpiredMsg
    ∧ isAuthenticated (requestB cfg w e x (.response 401 body)).world = false
    ∧ (requestB cfg w e x (.response 401 body)).outcome = .authExpired sessionExpiredMsg := by
  have hcw : catchWrap (.authExpired sessionExpiredMsg) = .authExpired sessionExpiredMsg := by
    simp [catchWrap, outcomeMsg, sessionExpiredMsg_no_marker]
  have hA : handleA w (.response 401 body) = (logout w, .authExpired sessionExpiredMsg) := by
    simp [handleA, respOk_401, h, hcw]
  have hB : handleB w (.response 401 body) = (logout w, .authExpired sessionExpiredMsg) := by
    simp [handleB, respOk_401, hcw]
  refine ⟨?_, ?_, ?_, ?_⟩ <;>
    simp [requestA, requestB, hA, hB, isAuthenticated_logout]

theorem C2_unauthorized_active_teardown_witness :
    isAuthenticated wActive = true
    ∧ (isAuthenticated (requestA config wActive ("/x") [] (.response 401 (.invalid ("")))).world = false
       ∧ (requestA config wActive ("/x") [] (.response 401 (.invalid ("")))).outcome
           = .authExpired sessionExpiredMsg
       ∧ isAuthenticated (requestB config wActive ("/x") [] (.response 401 (.invalid ("")))).world = false
       ∧ (requestB config wActive ("/x") [] (.response 401 (.invalid ("")))).outcome
           = .authExpired sessionExpiredMsg) :=
  ⟨by decide, C2_unauthorized_active_teardown config wActive ("/x") [] (.invalid ("")) (by decide)⟩

/-- Claim C3 counterexample: gateway variant B, whose 401 branch is not
guarded by Auth.isAuthenticated, answers a 401 received with no active session
with AuthExpired, not with the HttpError the claim states. -/
theorem C3_variantB_counterexample :
    isAuthenticated initWorld = false
    ∧ (requestB config initWorld ("/users/7") [] (.response 401 (.invalid ("")))).outcome
        = .authExpired sessionExpiredMsg
    ∧ Outcome.authExpired sessionExpiredMsg
        ≠ .httpError 401 (errBodyMsg (.invalid ("")) 401) := by
  refine ⟨rfl, rfl, ?_⟩
  decide

/-- Claim C3 amended: in gateway variant A, a 401 received while no session is
active leaves the world unchanged and is classified as HttpError with status
401 and the message derived from the response body, provided that derived
message does not contain the fetch rejection marker (which the shared catch
block would reclassify as a network failure); gateway variant B instead treats
every 401 as session expiry regardless of session state. -/
theorem C3_variantA_http_error_401 (cfg : Config) (w : World) (e : String)
    (x : List (String × String)) (body : Body) (h : isAuthenticated w = false)
    (hm : containsStr (errBodyMsg body 401) fetchRejectMarker = false) :
    (requestA cfg w e x (.response 401 body)).world = w
    ∧ (requestA cfg w e x (.response 401 body)).outcome
        = .httpError 401 (errBodyMsg body 401) := by
  have hcw : catchWrap (.httpError 401 (errBodyMsg body 401))
      = .httpError 401 (errBodyMsg body 401) := by
    simp [catchWrap, outcomeMsg, hm]
  have hA : handleA w (.response 401 body) = (w, .httpError 401 (errBodyMsg body 401)) := by
    simp [handleA, respOk_401, h, hcw]
  exact ⟨by simp [requestA, hA], by simp [requestA, hA]⟩

theorem C3_variantA_http_error_401_witness :
    (isAuthenticated initWorld = false
     ∧ containsStr (errBodyMsg (.invalid ("")) 401) fetchRejectMarker = false)
    ∧ ((requestA config initWorld ("/users/7") [] (.response 401 (.invalid ("")))).world = initWorld
       ∧ (requestA config initWorld ("/users/7") [] (.response 401 (.invalid ("")))).outcome
           = .httpError 401 (errBodyMsg (.invalid ("")) 401)) :=
  ⟨⟨by decide, by decide⟩,
   C3_variantA_http_error_401 config initWorld ("/users/7") [] (.invalid (""))
     (by decide) (by decide)⟩

/-- Claim C5: when no session exists, that is, neither a token nor a
credentials record is stored, and the caller supplies no Authorization header
of its own, the headers assembled by either gateway variant contain no
Authorization header at all. -/
theorem C5_no_session_no_auth_header (cfg : Config) (w : World) (e : String)
    (x : List (String × String)) (fr : FetchResult) (ht : getToken w = none)
    (hc : getCredentials w = none) (hx : hasHeaderKey x ("Authorization") = false) :
    hasHeaderKey (requestA cfg w e x fr).call.headers ("Authorization") = false
    ∧ hasHeaderKey (requestB cfg w e x fr).call.headers ("Authorization") = false := by
  have hah : getAuthHeader w = "" := by
    unfold getAuthHeader
    rw [hc, ht]
  have hia : isAuthenticated w = false := by
    unfold isAuthenticated
    rw [hc, ht]
    rfl
  constructor
  · simp [requestA, buildFetchA, hah, spreadString, hx]
  · simp [requestB, buildFetchB, hia, hasHeaderKey] at *
    simpa [hasHeaderKey] using hx

theorem C5_no_session_no_auth_header_witness :
    (getToken initWorld = none ∧ getCredentials initWorld = none
     ∧ hasHeaderKey ([] : List (String × String)) ("Authorization") = false)
    ∧ (hasHeaderKey (requestA config initWorld ("/users") [] (.response 200 (.json {}))).call.headers
          ("Authorization") = false
       ∧ hasHeaderKey (requestB config initWorld ("/users") [] (.response 200 (.json {}))).call.headers
          ("Authorization") = false) :=
  ⟨⟨rfl, rfl, rfl⟩,
   C5_no_session_no_auth_header config initWorld ("/users") [] (.response 200 (.json {}))
     rfl rfl rfl⟩

/-- Claim C6 counterexample: a transport failure whose message is
"connection refused" is rethrown verbatim by the catch block, so the caller
receives the raw transport error text rather than the fixed user-safe
NetworkError. -/
theorem C6_raw_transport_leak_counterexample :
    (requestA config initWorld ("/x") [] (.transportFail ("connection refused"))).outcome
      = .raw ("connection refused")
    ∧ Outcome.raw ("connection refused") ≠ .networkError netFailMsg := by
  refine ⟨rfl, ?_⟩
  decide

/-- Claim C6 amended: only transport failures whose error message contains
"Failed to fetch" are replaced by the fixed user-safe NetworkError message;
any other transport error message is rethrown verbatim to the caller. -/
theorem C6_marker_network_error (cfg : Config) (w : World) (e : String)
    (x : List (String × String)) (m : String)
    (h : containsStr m fetchRejectMarker = true) :
    (requestA cfg w e x (.transportFail m)).outcome = .networkError netFailMsg
    ∧ (requestB cfg w e x (.transportFail m)).outcome = .networkError netFailMsg := by
  have hcw : catchWrap (.raw m) = .networkError netFailMsg := by
    simp [catchWrap, outcomeMsg, h]
  exact ⟨by simp [requestA, handleA, hcw], by simp [requestB, handleB, hcw]⟩

theorem C6_marker_network_error_witness :
    containsStr ("TypeError: Failed to fetch") fetchRejectMarker = true
    ∧ ((requestA config initWorld ("/x") [] (.transportFail ("TypeError: Failed to fetch"))).outcome
         = .networkError netFailMsg
       ∧ (requestB config initWorld ("/x") [] (.transportFail ("TypeError: Failed to fetch"))).outcome
         = .networkError netFailMsg) :=
  ⟨by decide,
   C6_marker_network_error config initWorld ("/x") [] ("TypeError: Failed to fetch") (by decide)⟩

/-- The timer invariant of the session store: either no expiry timer is armed,
or exactly the one whose id Auth remembers in _timeoutId. -/
def TimerInv (w : World) : Prop :=
  w.sched.pending = [] ∨ ∃ i, w.auth.timeoutId = some i ∧ w.sched.pending = [i]

theorem timerInv_initWorld : TimerInv initWorld := Or.inl rfl

theorem setSessionTimeout_arms_one (w : World) (h : TimerInv w) :
    ∃ j, (setSessionTimeout w).auth.timeoutId = some j
      ∧ (setSessionTimeout w).sched.pending = [j] := by
  rcases h with hp | ⟨i, hti, hp⟩
  · cases hti : w.auth.timeoutId with
    | none =>
        refine ⟨w.sched.nextId, ?_, ?_⟩ <;>
          simp [setSessionTimeout, setTimeoutJs, hti, hp]
    | some i =>
        refine ⟨w.sched.nextId, ?_, ?_⟩ <;>
          simp [setSessionTimeout, setTimeoutJs, clearTimeoutJs, hti, hp]
  · refine ⟨w.sched.nextId, ?_, ?_⟩ <;>
      simp [setSessionTimeout, setTimeoutJs, clearTimeoutJs, hti, hp]

theorem handleA_world_cases (w : World) (fr : FetchResult) :
    (handleA w fr).1 = w ∨ (handleA w fr).1 = logout w := by
  cases fr with
  | transportFail m => exact Or.inl rfl
  | response status body =>
    cases hok : respOk status with
    | true => cases body <;> simp [handleA, hok]
    | false =>
      cases h4 : (status == 401 && isAuthenticated w) with
      | true => simp [handleA, hok, h4]
      | false => simp [handleA, hok, h4]

theorem handleB_world_cases (w : World) (fr : FetchResult) :
    (handleB w fr).1 = w ∨ (handleB w fr).1 = logout w := by
  cases fr with
  | transportFail m => exact Or.inl rfl
  | response status body =>
    cases hok : respOk status with
    | true => cases body <;> simp [handleB, hok]
    | false =>
      cases h4 : (status == 401) with
      | true => simp [handleB, hok, h4]
      | false => simp [handleB, hok, h4]

theorem timerInv_logout (w : World) (h : TimerInv w) : TimerInv (logout w) := h

theorem login_arms_one (cfg : Config) (now : Nat) (u p : String) (ud : Option UserData)
    (w : World) (h : TimerInv w) :
    ∃ j, (login cfg now u p ud w).auth.timeoutId = some j
      ∧ (login cfg now u p ud w).sched.pending = [j] := by
  cases ud <;> exact setSessionTimeout_arms_one _ h

theorem timerInv_step (cfg : Config) (w : World) (op : Op) (h : TimerInv w) :
    TimerInv (step cfg w op) := by
  cases op with
  | opLogin now u p ud =>
    obtain ⟨j, hj, hp⟩ := login_arms_one cfg now u p ud w h
    exact Or.inr ⟨j, hj, hp⟩
  | opLogout => exact h
  | opFire =>
    rcases h with hp | ⟨i, hti, hp⟩
    · show TimerInv (fireTimer w)
      unfold fireTimer
      rw [hp]
      exact Or.inl hp
    · show TimerInv (fireTimer w)
      unfold fireTimer
      rw [hp]
      exact Or.inl rfl
  | opReqA e x fr =>
    rcases handleA_world_cases w fr with hw | hw
    · show TimerInv (handleA w fr).1
      rw [hw]; exact h
    · show TimerInv (handleA w fr).1
      rw [hw]; exact h
  | opReqB e x fr =>
    rcases handleB_world_cases w fr with hw | hw
    · show TimerInv (handleB w fr).1
      rw [hw]; exact h
    · show TimerInv (handleB w fr).1
      rw [hw]; exact h

theorem timerInv_run (cfg : Config) (ops : List Op) :
    ∀ w : World, TimerInv w → TimerInv (run cfg ops w) := by
  induction ops with
  | nil => intro w h; exact h
  | cons op rest ih => intro w h; exact ih _ (timerInv_step cfg w op h)

theorem run_fires_of_empty (cfg : Config) (n : Nat) :
    ∀ w : World, w.sched.pending = [] → run cfg (List.replicate n .opFire) w = w := by
  induction n with
  | zero => intro w _; rfl
  | succ k ih =>
    intro w h
    rw [List.replicate_succ, run_cons]
    have hs : step cfg w .opFire = w := by
      show fireTimer w = w
      unfold fireTimer
      rw [h]
    rw [hs]
    exact ih w h

theorem run_fires_alerts (cfg : Config) (n : Nat) :
    ∀ w : World, TimerInv w →
      (run cfg (List.replicate n .opFire) w).alerts ≤ w.alerts + 1 := by
  induction n with
  | zero => intro w _; exact Nat.le_succ _
  | succ k ih =>
    intro w h
    rw [List.replicate_succ, run_cons]
    rcases h with hp | ⟨i, hti, hp⟩
    · have hs : step cfg w .opFire = w := by
        show fireTimer w = w
        unfold fireTimer
        rw [hp]
      rw [hs]
      exact ih w (Or.inl hp)
    · have hs : step cfg w .opFire
          = logout { w with sched := { w.sched with pending := [] },
                            alerts := w.alerts + 1 } := by
        show fireTimer w = _
        unfold fireTimer
        rw [hp]
      rw [hs]
      rw [run_fires_of_empty cfg k _ rfl]
      exact Nat.le_refl _

/-- Claim C8: over any event history, at most one expiry timer is armed at any
time; a further create() (login) always leaves exactly one armed timer, the
fresh one, cancelling any prior one; and any number of timer firings without
an intervening login produces at most one expiry notification. -/
theorem C8_single_timer (cfg : Config) (ops : List Op) (now : Nat) (u p : String)
    (ud : Option UserData) (n : Nat) :
    (run cfg ops initWorld).sched.pending.length ≤ 1
    ∧ (run cfg (ops ++ [.opLogin now u p ud]) initWorld).sched.pending.length = 1
    ∧ (run cfg (List.replicate n .opFire) (run cfg ops initWorld)).alerts
        ≤ (run cfg ops initWorld).alerts + 1 := by
  have hInv : TimerInv (run cfg ops initWorld) :=
    timerInv_run cfg ops initWorld timerInv_initWorld
  refine ⟨?_, ?_, run_fires_alerts cfg n _ hInv⟩
  · rcases hInv with h | ⟨i, _, h⟩ <;> simp [h]
  · rw [run_append]
    obtain ⟨j, hj, hp⟩ := login_arms_one cfg now u p ud (run cfg ops initWorld) hInv
    show (login cfg now u p ud (run cfg ops initWorld)).sched.pending.length = 1
    rw [hp]
    rfl

end Meridian
